import Mathlib

/-!
Shallow embedding of the TieList CSV schema-detection and aggregation engine
(`core/processor.py`, `core/exporter.py`).

Modelling conventions:
* Python strings are Lean `String`; `str.strip()` is `pyStrip`,
  `str.lower()` is `pyLower`, written over `List Char` so that concrete
  instances reduce inside the kernel (all inputs of interest are ASCII).
* A folder's contents are given as the list of its file names (the engine
  never recurses into subdirectories of a monthly folder).
* Python floats are modelled as `Rat`; `float(cell)` is `parseFloat`,
  defined on finite decimal literals with optional sign, fraction and
  exponent (the domain the aggregation engine meets).
* `dict` values (insertion ordered) are association lists; `defaultdict`
  accumulation is `addValue` below.
* File writes are modelled by returning the path and rows that would be
  written; `none` from `write_yearly_results_csv` means no file is created.
-/

attribute [local semireducible] Rat.add Rat.mul Rat.inv Rat.sub Rat.ofScientific

namespace TieList

/-- The whitespace characters stripped by Python `str.strip()` (ASCII part). -/
def isSpaceChar (c : Char) : Bool :=
  c = ' ' || c = '\t' || c = '\n' || c = '\r' || c = '\x0b' || c = '\x0c'

/-- Python `str.strip()`: drop whitespace from both ends. -/
def pyStrip (s : String) : String :=
  String.mk (((s.toList.dropWhile isSpaceChar).reverse.dropWhile isSpaceChar).reverse)

/-- Python `str.lower()` (ASCII case folding). -/
def pyLower (s : String) : String :=
  String.mk (s.toList.map Char.toLower)

/-- Does the first list lead the second (list version of `startswith`)? -/
def leadsWith : List Char → List Char → Bool
  | [], _ => true
  | _ :: _, [] => false
  | a :: as, b :: bs => a = b && leadsWith as bs

/-- Python `s.startswith(pat)`. -/
def strStarts (s pat : String) : Bool :=
  leadsWith pat.toList s.toList

/-- Python `s.endswith(pat)`. -/
def strEnds (s pat : String) : Bool :=
  leadsWith pat.toList.reverse s.toList.reverse

/-- Is `pat` a contiguous substring of `s` (Python `pat in s`)? -/
def charsContain (pat : List Char) : List Char → Bool
  | [] => leadsWith pat []
  | c :: r => leadsWith pat (c :: r) || charsContain pat r

/-- Python `pat in s` on strings. -/
def strContains (s pat : String) : Bool :=
  charsContain pat.toList s.toList

/-- Code points of a string, for Python-style lexicographic comparison. -/
def strLeChars : List Char → List Char → Bool
  | [], _ => true
  | _ :: _, [] => false
  | a :: as, b :: bs =>
      if a.toNat < b.toNat then true
      else if b.toNat < a.toNat then false
      else strLeChars as bs

/-- Python `s1 <= s2` on strings (code-point lexicographic order). -/
def strLe (a b : String) : Bool :=
  strLeChars a.toList b.toList

/-- Insert into a sorted list of strings (helper for `sortStrings`). -/
def insertStr (x : String) : List String → List String
  | [] => [x]
  | y :: r => if strLe x y then x :: y :: r else y :: insertStr x r

/-- Python `sorted` on a list of strings (insertion sort). -/
def sortStrings (l : List String) : List String :=
  l.foldr insertStr []

/-- Index of the last '.' in a character list (helper for `splitextRoot`). -/
def lastDotIdx : Nat → Option Nat → List Char → Option Nat
  | _, acc, [] => acc
  | i, acc, c :: r => lastDotIdx (i + 1) (if c = '.' then some i else acc) r

/-- The root part of `os.path.splitext`: everything before the final
extension dot, except that a name whose only dots are leading dots is not
split (CPython `genericpath`). -/
def splitextRoot (name : String) : String :=
  let cs := name.toList
  match lastDotIdx 0 none cs with
  | none => name
  | some i =>
      if (cs.take i).any (fun c => c ≠ '.') then String.mk (cs.take i) else name

/-- `list_csv_files`: keep the names ending in ".csv" (case-insensitive),
sorted. A folder is modelled by the list of its entries' names. -/
def list_csv_files (folder : List String) : List String :=
  sortStrings (folder.filter (fun name => strEnds (pyLower name) ".csv"))

/-- `root.lower().endswith("_update")` from `choose_csv_files`. -/
def isUpdateRoot (root : String) : Bool :=
  strEnds (pyLower root) "_update"

/-- `root[:-7]`: drop the trailing 7 characters ("_update"). -/
def dropLast7 (root : String) : String :=
  String.mk (root.toList.take (root.toList.length - 7))

/-- Overwrite-or-append on an insertion-ordered association list
(`base_map[base_root] = path`). -/
def mapSet : List (String × String) → String → String → List (String × String)
  | [], k, v => [(k, v)]
  | (k', v') :: r, k, v =>
      if k' = k then (k', v) :: r else (k', v') :: mapSet r k v

/-- `dict.setdefault`: append only when the key is absent. -/
def mapSetDefault : List (String × String) → String → String → List (String × String)
  | [], k, v => [(k, v)]
  | (k', v') :: r, k, v =>
      if k' = k then (k', v') :: r else (k', v') :: mapSetDefault r k v

/-- Lookup in an association list (`base_map[k]`), empty string if absent. -/
def mapLookup : List (String × String) → String → String
  | [], _ => ""
  | (k', v') :: r, k => if k' = k then v' else mapLookup r k

/-- `choose_csv_files`: decide which CSV files of a folder to use.
With `prefer_updates` false, every file whose stem ends in "_update"
(case-insensitively) is dropped.  With it true, files are grouped under a
base key (the stem, with a trailing "_update" stripped but the original
case kept); an update file overwrites the key's entry, a base file only
fills an absent key; the chosen paths are listed by sorted base key. -/
def choose_csv_files (folder : List String) (prefer_updates : Bool) : List String :=
  let all_csv := list_csv_files folder
  if !prefer_updates then
    all_csv.filter (fun path => !isUpdateRoot (splitextRoot path))
  else
    let base_map := all_csv.foldl
      (fun m path =>
        let root := splitextRoot path
        if isUpdateRoot root then mapSet m (dropLast7 root) path
        else mapSetDefault m root path)
      []
    (sortStrings (base_map.map (fun p => p.1))).map (fun k => mapLookup base_map k)

/-- Numeric value of an ASCII digit. -/
def digitVal (c : Char) : Nat := c.toNat - 48

/-- Is `c` an ASCII digit? -/
def isDigitChar (c : Char) : Bool := 48 ≤ c.toNat && c.toNat ≤ 57

/-- Value of a digit string read most-significant first. -/
def digitsToNat (ds : List Char) : Nat := ds.foldl (fun a c => a * 10 + digitVal c) 0

/-- Python `float(s)` on finite decimal literals: optional sign, digits with
an optional fraction part, optional decimal exponent.  Anything else (for
example "N/A" or the empty string) raises `ValueError` in Python, modelled
here by `none`. -/
def parseFloat (s : String) : Option Rat :=
  let cs := s.toList
  let signed : Bool × List Char :=
    match cs with
    | '-' :: r => (true, r)
    | '+' :: r => (false, r)
    | _ => (false, cs)
  let neg := signed.1
  let cs1 := signed.2
  let ip := cs1.takeWhile isDigitChar
  let cs2 := cs1.dropWhile isDigitChar
  let fract : List Char × List Char :=
    match cs2 with
    | '.' :: r => (r.takeWhile isDigitChar, r.dropWhile isDigitChar)
    | _ => ([], cs2)
  let fp := fract.1
  let cs3 := fract.2
  if ip = [] && fp = [] then none
  else
    let mant : Rat :=
      (digitsToNat ip : Rat) + (digitsToNat fp : Rat) / ((10 : Rat) ^ fp.length)
    match cs3 with
    | [] => some (if neg then -mant else mant)
    | e :: r =>
      if e = 'e' || e = 'E' then
        let esigned : Bool × List Char :=
          match r with
          | '-' :: r2 => (true, r2)
          | '+' :: r2 => (false, r2)
          | _ => (false, r)
        let ed := esigned.2.takeWhile isDigitChar
        let rest := esigned.2.dropWhile isDigitChar
        if ed = [] || rest ≠ [] then none
        else
          let v : Rat :=
            if esigned.1 then mant / (10 : Rat) ^ digitsToNat ed
            else mant * (10 : Rat) ^ digitsToNat ed
          some (if neg then -v else v)
      else none

/-- The flow-type tokens that are actually summed (`SUPPORTED_TYPES`). -/
def SUPPORTED_TYPES : List String := ["export", "import"]

/-- Python `str.capitalize()`: first character upper-cased, rest lowered. -/
def pyCapitalize (s : String) : String :=
  match s.toList with
  | [] => ""
  | c :: r => String.mk (c.toUpper :: r.map Char.toLower)

/-- Per-file totals: tie name to flow type to accumulated value, as an
insertion-ordered association list (Python `defaultdict` of `defaultdict`). -/
abbrev Totals : Type := List (String × List (String × Rat))

/-- Add into an inner flow-type map (`results[name][flow] += v`, inner part). -/
def addFlow : List (String × Rat) → String → Rat → List (String × Rat)
  | [], f, v => [(f, v)]
  | (f', x) :: r, f, v =>
      if f' = f then (f', x + v) :: r else (f', x) :: addFlow r f v

/-- `results[name][flow] += v` on the nested `defaultdict(float)` model:
a missing key materialises with value `0` before the addition. -/
def addValue : Totals → String → String → Rat → Totals
  | [], l, f, v => [(l, addFlow [] f v)]
  | (l', td) :: r, l, f, v =>
      if l' = l then (l', addFlow td f v) :: r
      else (l', td) :: addValue r l f v

/-- `type_dict.get(flow, 0.0)` on the inner map. -/
def lookupFlow : List (String × Rat) → String → Rat
  | [], _ => 0
  | (f', x) :: r, f => if f' = f then x else lookupFlow r f

/-- Total recorded for a tie and flow type, `0` when absent. -/
def lookupTotal (tot : Totals) (l f : String) : Rat :=
  match tot with
  | [] => 0
  | (l', td) :: r => if l' = l then lookupFlow td f else lookupTotal r l f

/-- Indexed scan of `_find_hour_indices` (Python `enumerate`). -/
def find_hour_indices_aux : Nat → List String → List Nat
  | _, [] => []
  | i, cell :: r =>
      if strStarts (pyLower (pyStrip cell)) "hr" then i :: find_hour_indices_aux (i + 1) r
      else find_hour_indices_aux (i + 1) r

/-- `_find_hour_indices`: the column indices whose header cell, trimmed and
lowered, starts with "hr".  (The Python `None`-cell skip cannot arise here:
`csv.reader` yields strings only.) -/
def find_hour_indices (header_row : List String) : List Nat :=
  find_hour_indices_aux 0 header_row

/-- Indexed scan of `_locate_header_and_hours`. -/
def locate_aux : Nat → List (List String) → Option (Nat × List Nat)
  | _, [] => none
  | i, row :: rest =>
      let hour_cols := find_hour_indices row
      if hour_cols = [] then locate_aux (i + 1) rest else some (i, hour_cols)

/-- `_locate_header_and_hours`: first row with at least one hour column,
together with those columns; the Python `(-1, [])` failure is `none`. -/
def locate_header_and_hours (rows : List (List String)) : Option (Nat × List Nat) :=
  locate_aux 0 rows

/-- Header keywords marking the tie/line name column. -/
def NAME_KEYWORDS : List String := ["name", "line", "tie"]

/-- Indexed scan of `_find_name_col` (empty cells are skipped). -/
def find_name_col_aux : Nat → List String → Option Nat
  | _, [] => none
  | i, cell :: r =>
      if cell = "" then find_name_col_aux (i + 1) r
      else if NAME_KEYWORDS.any (fun k => strContains (pyLower (pyStrip cell)) k) then some i
      else find_name_col_aux (i + 1) r

/-- `_find_name_col`: first header column whose text contains "name",
"line" or "tie" (case-insensitive); `none` when absent. -/
def find_name_col (header_row : List String) : Option Nat :=
  find_name_col_aux 0 header_row

/-- Indexed scan for the flow-type column inside a data row. -/
def findFlowIdxAux : Nat → List String → Option Nat
  | _, [] => none
  | i, c :: r =>
      if pyLower (pyStrip c) ∈ SUPPORTED_TYPES then some i
      else findFlowIdxAux (i + 1) r

/-- First cell of a row equal (trimmed, lowered) to "export" or "import". -/
def findFlowIdx (row : List String) : Option Nat :=
  findFlowIdxAux 0 row

/-- The positional fallback of the name lookup: the cell two positions to
the right of the flow column, trimmed; empty when the row is too short. -/
def fallbackNameCell (flowColIdx : Nat) (row : List String) : String :=
  if flowColIdx + 2 < row.length then pyStrip (row.getD (flowColIdx + 2) "") else ""

/-- The `line_name_cell` computation of `process_csv_file`: the trimmed
name-column cell when a name column was detected and the row reaches it,
otherwise the positional fallback. -/
def lineNameCell (nameColIdx : Option Nat) (flowColIdx : Nat) (row : List String) : String :=
  match nameColIdx with
  | some i =>
      if i < row.length then pyStrip (row.getD i "")
      else fallbackNameCell flowColIdx row
  | none => fallbackNameCell flowColIdx row

/-- One step of the Hr01..Hr24 summation loop of `process_csv_file`:
out-of-range and blank cells are skipped, cells that fail to parse are
skipped (`except ValueError: continue`). -/
def hourStep (row : List String) (acc : Rat) (idx : Nat) : Rat :=
  if row.length ≤ idx then acc
  else if pyStrip (row.getD idx "") = "" then acc
  else
    match parseFloat (pyStrip (row.getD idx "")) with
    | some v => acc + v
    | none => acc

/-- `total_for_row`: the sum over the hour columns of one data row. -/
def rowHourSum (hourCols : List Nat) (row : List String) : Rat :=
  hourCols.foldl (hourStep row) 0

/-- The state carried across data rows by `process_csv_file`. -/
structure RowState where
  currentLineName : String
  flowColIndex : Option Nat
  results : Totals

/-- The body of the `for row in data_rows` loop of `process_csv_file`. -/
def processRow (hourCols : List Nat) (nameColIdx : Option Nat)
    (st : RowState) (row : List String) : RowState :=
  if row = [] then st
  else
    let fc := match st.flowColIndex with
      | some i => some i
      | none => findFlowIdx row
    let st1 : RowState := { st with flowColIndex := fc }
    match fc with
    | none => st1
    | some fci =>
      if row.length ≤ fci then st1
      else
        let flowType := pyStrip (row.getD fci "")
        if flowType = "" then st1
        else if pyLower flowType ∉ SUPPORTED_TYPES then st1
        else
          let nameCell := lineNameCell nameColIdx fci row
          let st2 := if nameCell = "" then st1
            else { st1 with currentLineName := nameCell }
          if st2.currentLineName = "" then st2
          else
            let total := rowHourSum hourCols row
            let newResults := addValue st2.results st2.currentLineName (pyCapitalize flowType) total
            { st2 with results := newResults }

/-- `process_csv_file` on the parsed rows of one monthly CSV: locate the
header and hour columns, optionally a name column, then fold the row
aggregator over the remaining rows. -/
def process_csv_file (all_rows : List (List String)) : Totals :=
  if all_rows = [] then []
  else
    match locate_header_and_hours all_rows with
    | none => []
    | some (header_index, hour_cols) =>
      let header_row := all_rows.getD header_index []
      let name_col_idx := find_name_col header_row
      let data_rows := all_rows.drop (header_index + 1)
      (data_rows.foldl (processRow hour_cols name_col_idx)
        { currentLineName := "", flowColIndex := none, results := [] }).results

/-- The inner two loops of `merge_results`: fold one per-file result into
the yearly accumulator (`yearly[line_name][flow_type] += value`). -/
def mergeOneResult (yearly : Totals) (res : Totals) : Totals :=
  res.foldl (fun acc p => p.2.foldl (fun a q => addValue a p.1 q.1 q.2) acc) yearly

/-- `merge_results`: additive fold of the per-file totals into one yearly
totals map. -/
def merge_results (list_of_results : List Totals) : Totals :=
  list_of_results.foldl mergeOneResult []

/-- Specification-side sum: what one inner flow-type map contributes to the
entry `(l, q)` of the merged result. -/
def tdContrib (ln : String) (td : List (String × Rat)) (l q : String) : Rat :=
  (td.map (fun p => if ln = l ∧ p.1 = q then p.2 else 0)).sum

/-- Specification-side sum: what one per-file totals map contributes to the
entry `(l, q)` of the merged result. -/
def resContrib (res : Totals) (l q : String) : Rat :=
  (res.map (fun p => tdContrib p.1 p.2 l q)).sum

/-- `write_yearly_results_csv` modelled by its observable effect: `none`
when the totals map is empty (no file is created), otherwise the output
path and the data rows `(line, Export total, Import total)` in sorted
order (the constant header row is not repeated in the model). -/
def write_yearly_results_csv (yearly_results : Totals)
    (folder_label output_folder : String) :
    Option (String × List (String × Rat × Rat)) :=
  if yearly_results = [] then none
  else
    let out_path := output_folder ++ "/" ++ folder_label ++ "_YearlyTotals.csv"
    let rows := (sortStrings (yearly_results.map (fun p => p.1))).map
      (fun ln =>
        (ln, lookupTotal yearly_results ln "Export", lookupTotal yearly_results ln "Import"))
    some (out_path, rows)

/-- `write_subfolder_summary` from `core/exporter.py`, modelled the same
way.  It writes unconditionally: the returned path and rows
`(folder, line, Export total, Import total)`; an empty totals map still
produces the file (holding only the header row). -/
def write_subfolder_summary (output_root folder_name : String)
    (yearly_results : Totals) :
    String × List (String × String × Rat × Rat) :=
  (output_root ++ "/" ++ folder_name ++ "_summary.csv",
   (sortStrings (yearly_results.map (fun p => p.1))).map
     (fun ln =>
       (folder_name, ln, lookupTotal yearly_results ln "Export",
        lookupTotal yearly_results ln "Import")))

/-- Is `b` a UTF-8 continuation byte? -/
def isContByte (b : Nat) : Bool := 0x80 ≤ b && b ≤ 0xBF

/-- Strict UTF-8 decoding with a structural fuel argument (each decoded
character consumes at least one byte, so fuel equal to the byte count is
always enough; see `utf8Decode`). -/
def utf8DecodeAux : Nat → List Nat → Option (List Char)
  | _, [] => some []
  | 0, _ :: _ => none
  | fuel + 1, b :: rest =>
    if b ≤ 0x7F then (utf8DecodeAux fuel rest).map (fun cs => Char.ofNat b :: cs)
    else if b ≤ 0xC1 then none
    else if b ≤ 0xDF then
      match rest with
      | c1 :: r =>
        if isContByte c1 then
          (utf8DecodeAux fuel r).map
            (fun cs => Char.ofNat ((b - 0xC0) * 0x40 + (c1 - 0x80)) :: cs)
        else none
      | _ => none
    else if b ≤ 0xEF then
      match rest with
      | c1 :: c2 :: r =>
        let ok1 : Bool :=
          if b = 0xE0 then 0xA0 ≤ c1 && c1 ≤ 0xBF
          else if b = 0xED then 0x80 ≤ c1 && c1 ≤ 0x9F
          else isContByte c1
        if ok1 && isContByte c2 then
          (utf8DecodeAux fuel r).map
            (fun cs =>
              Char.ofNat ((b - 0xE0) * 0x1000 + (c1 - 0x80) * 0x40 + (c2 - 0x80)) :: cs)
        else none
      | _ => none
    else if b ≤ 0xF4 then
      match rest with
      | c1 :: c2 :: c3 :: r =>
        let ok1 : Bool :=
          if b = 0xF0 then 0x90 ≤ c1 && c1 ≤ 0xBF
          else if b = 0xF4 then 0x80 ≤ c1 && c1 ≤ 0x8F
          else isContByte c1
        if ok1 && isContByte c2 && isContByte c3 then
          (utf8DecodeAux fuel r).map
            (fun cs =>
              Char.ofNat
                ((b - 0xF0) * 0x40000 + (c1 - 0x80) * 0x1000 + (c2 - 0x80) * 0x40
                  + (c3 - 0x80)) :: cs)
        else none
      | _ => none
    else none

/-- The UTF-8 decoder applied by `open(..., encoding="utf-8-sig")` (after
the optional BOM is removed): strict decoding of a byte list, rejecting
overlong forms, surrogates and values beyond U+10FFFF, exactly the inputs
on which Python raises `UnicodeDecodeError`. -/
def utf8Decode (bs : List Nat) : Option (List Char) :=
  utf8DecodeAux bs.length bs

/-- The "utf-8-sig" codec: an optional leading byte-order mark is dropped,
then the bytes must decode as strict UTF-8; `none` models the
`UnicodeDecodeError` that `open(..., encoding="utf-8-sig")` raises. -/
def utf8SigDecode (bs : List Nat) : Option (List Char) :=
  utf8Decode (if bs.take 3 = [0xEF, 0xBB, 0xBF] then bs.drop 3 else bs)

/-- Split a character list at every occurrence of `sep`. -/
def splitCharsOn (sep : Char) : List Char → List (List Char)
  | [] => [[]]
  | c :: r =>
    let rest := splitCharsOn sep r
    if c = sep then [] :: rest
    else (c :: rest.headD []) :: rest.tail

/-- Drop one trailing carriage return (a "\r\n" row separator). -/
def stripCR (line : List Char) : List Char :=
  match line.reverse with
  | '\r' :: r => r.reverse
  | _ => line

/-- One record of `csv.reader`: a blank line yields the empty row, else
the comma-separated fields (the engine's data carries no quoted fields,
so the quoting rules of the `csv` dialect never fire). -/
def csvSplitLine (line : List Char) : List String :=
  if line = [] then [] else (splitCharsOn ',' line).map String.mk

/-- `list(csv.reader(f))`: rows of the decoded text, separated by "\n" or
"\r\n"; a terminating newline does not open a final empty record. -/
def parseCsvChars (cs : List Char) : List (List String) :=
  let lines := (splitCharsOn '\n' cs).map stripCR
  let lines2 :=
    match lines.reverse with
    | [] :: r => r.reverse
    | _ => lines
  lines2.map csvSplitLine

/-- The Python exception surfaced by the reading step. -/
inductive PyError where
  | unicodeDecodeError
  deriving DecidableEq

instance {ε α : Type} [DecidableEq ε] [DecidableEq α] : DecidableEq (Except ε α) :=
  fun a b =>
    match a, b with
    | .error x, .error y =>
        if h : x = y then .isTrue (by rw [h]) else .isFalse (fun he => h (Except.error.inj he))
    | .ok x, .ok y =>
        if h : x = y then .isTrue (by rw [h]) else .isFalse (fun he => h (Except.ok.inj he))
    | .error _, .ok _ => .isFalse (fun he => Except.noConfusion he)
    | .ok _, .error _ => .isFalse (fun he => Except.noConfusion he)

/-- `process_csv_file` from the raw file bytes: the `open` call decodes
with "utf-8-sig" only — there is no `try`/`except` and no fallback
encoding in `core/processor.py`, so a decode failure propagates as an
exception (`Except.error`). -/
def process_csv_file_bytes (bs : List Nat) : Except PyError Totals :=
  match utf8SigDecode bs with
  | none => Except.error PyError.unicodeDecodeError
  | some cs => Except.ok (process_csv_file (parseCsvChars cs))

end TieList

namespace TieList

/-- The empty cell parses to nothing. -/
theorem parseFloat_empty : parseFloat "" = none := by decide

/-- Trimming the empty string is a no-op. -/
theorem pyStrip_empty : pyStrip "" = "" := by decide

/-- One hour-cell step adds exactly the parsed value of the (trimmed) cell,
with `0` for a missing, blank or unparseable cell. -/
theorem hourStep_eq (row : List String) (acc : Rat) (idx : Nat) :
    hourStep row acc idx = acc + (parseFloat (pyStrip (row.getD idx ""))).getD 0 := by
  unfold hourStep
  by_cases h : row.length ≤ idx
  · rw [if_pos h, List.getD_eq_default _ _ h, pyStrip_empty, parseFloat_empty]
    simp
  · rw [if_neg h]
    by_cases hb : pyStrip (row.getD idx "") = ""
    · rw [if_pos hb, hb, parseFloat_empty]
      simp
    · rw [if_neg hb]
      cases hpf : parseFloat (pyStrip (row.getD idx "")) with
      | none => simp
      | some v => simp

/-- Unrolling the hour-summation fold from any accumulator. -/
theorem foldl_hourStep (row : List String) (hc : List Nat) (acc : Rat) :
    hc.foldl (hourStep row) acc
      = acc + (hc.map (fun i => (parseFloat (pyStrip (row.getD i ""))).getD 0)).sum := by
  induction hc generalizing acc with
  | nil => simp
  | cons i t ih => simp [List.foldl_cons, hourStep_eq, ih, add_assoc]

end TieList

/-- C9: the row sum over the hour columns equals the sum of the parsed
cell values where every blank, missing or non-numeric cell (such as
"N/A") contributes exactly 0; the summation is total, so no error is
raised. -/
theorem claim9_bad_hour_cells_contribute_zero (hourCols : List Nat) (row : List String) :
    TieList.rowHourSum hourCols row
      = (hourCols.map
          (fun i => (TieList.parseFloat (TieList.pyStrip (row.getD i ""))).getD 0)).sum
    ∧ TieList.rowHourSum [0, 1, 2] ["N/A", " ", "5"] = 5 := by
  refine ⟨?_, by decide⟩
  rw [TieList.rowHourSum, TieList.foldl_hourStep]
  simp

/-- C2 (amended): when none of the first three rows has a cell that
trims and lowercases to an "hr" prefix, and the fourth row's hour-column
scan yields a non-empty index list, header detection returns row index 3
with exactly those indices; instantiated below at indices 5..28. -/
theorem claim2_header_detection_amended (r0 r1 r2 hrow : List String)
    (rest : List (List String)) (idxs : List Nat)
    (h0 : TieList.find_hour_indices r0 = [])
    (h1 : TieList.find_hour_indices r1 = [])
    (h2 : TieList.find_hour_indices r2 = [])
    (hh : TieList.find_hour_indices hrow = idxs) (hne : idxs ≠ []) :
    TieList.locate_header_and_hours (r0 :: r1 :: r2 :: hrow :: rest) = some (3, idxs) := by
  unfold TieList.locate_header_and_hours
  simp [TieList.locate_aux, h0, h1, h2, hh, hne]

/-- Witness for C2: a concrete file with three junk rows, then a header
with hour columns exactly at indices 5..28. -/
theorem claim2_header_detection_witness :
    TieList.locate_header_and_hours
      [["a"], [], ["b", "c"],
       ["j0", "j1", "j2", "j3", "j4"]
         ++ (List.range 24).map (fun i => "Hr" ++ toString (i + 1)),
       ["x"]]
      = some (3, (List.range 24).map (fun i => i + 5)) :=
  claim2_header_detection_amended ["a"] [] ["b", "c"]
    (["j0", "j1", "j2", "j3", "j4"]
      ++ (List.range 24).map (fun i => "Hr" ++ toString (i + 1)))
    [["x"]] ((List.range 24).map (fun i => i + 5))
    (by decide) (by decide) (by decide) (by decide) (by decide)

/-- Counterexample to C2 as stated: the claim quantifies over every
possible content of rows 0-2, but a row-0 cell starting with "hr" makes
row 0 the header, so detection does not return index 3 even though row 3
holds hour columns exactly at indices 5..28. -/
theorem claim2_counterexample :
    TieList.locate_header_and_hours
      [["Hr01"], [], [],
       ["j0", "j1", "j2", "j3", "j4"]
         ++ (List.range 24).map (fun i => "Hr" ++ toString (i + 1))]
      = some (0, [0])
    ∧ TieList.find_hour_indices
        (["j0", "j1", "j2", "j3", "j4"]
          ++ (List.range 24).map (fun i => "Hr" ++ toString (i + 1)))
        = (List.range 24).map (fun i => i + 5)
    ∧ some ((0 : Nat), [(0 : Nat)]) ≠ some (3, (List.range 24).map (fun i => i + 5)) := by
  refine ⟨by decide, by decide, by decide⟩

/-- C6: with no detected name column, a data row with a blank fallback
name cell immediately after a "TieA" row resolves to "TieA" by
carry-forward and its hour sum (10 + 20) is added to TieA's Export total
on top of the earlier row's 5 + 5. -/
theorem claim6_carry_forward_example :
    TieList.process_csv_file
      [["Flow", "Date", "X", "Hr01", "Hr02"],
       ["Export", "2024-01-02", "TieA", "5", "5"],
       ["Export", "2024-01-01", "", "10", "20"]]
      = [("TieA", [("Export", 40)])] := by decide

/-- C3 (amended): the name-column cell is used whenever the row reaches
the detected name column; when the row is too short to reach it the code
falls back to the positional cell exactly as if no name column had been
detected; and a row whose resolved name cell is blank leaves the current
tie name unchanged (carry-forward). -/
theorem claim3_name_resolution_amended (i fc : Nat) (row : List String)
    (hourCols : List Nat) (nameIdx : Option Nat) (st : TieList.RowState) :
    (i < row.length →
      TieList.lineNameCell (some i) fc row = TieList.pyStrip (row.getD i ""))
    ∧ (row.length ≤ i →
      TieList.lineNameCell (some i) fc row = TieList.lineNameCell none fc row)
    ∧ (st.flowColIndex = some fc → TieList.lineNameCell nameIdx fc row = "" →
      (TieList.processRow hourCols nameIdx st row).currentLineName
        = st.currentLineName) := by
  refine ⟨fun hlt => ?_, fun hge => ?_, fun hfc hname => ?_⟩
  · simp [TieList.lineNameCell, hlt]
  · simp [TieList.lineNameCell, Nat.not_lt.mpr hge]
  · by_cases hrow : row = []
    · simp [TieList.processRow, hrow]
    · simp only [TieList.processRow, hfc, if_neg hrow, hname]
      split_ifs <;> rfl

/-- Counterexample to C3 as stated: the header detects a name column at
index 10 ("Name"), yet for a data row of length 5 the code consults the
positional fallback (flow column + 2) and takes "TieB" from it, so the
fallback is not reserved for the no-name-column case. -/
theorem claim3_counterexample :
    TieList.find_name_col
        ["Type", "Date", "X", "Hr01", "Hr02", "c5", "c6", "c7", "c8", "c9", "Name"]
      = some 10
    ∧ TieList.lineNameCell (some 10) 0 ["Export", "2024", "TieB", "1", "2"] = "TieB"
    ∧ TieList.process_csv_file
        [["Type", "Date", "X", "Hr01", "Hr02", "c5", "c6", "c7", "c8", "c9", "Name"],
         ["Export", "2024", "TieB", "1", "2"]]
      = [("TieB", [("Export", 3)])] := by
  refine ⟨by decide, by decide, by decide⟩

/-- Witness for C3 at a concrete schema, row and state. -/
theorem claim3_name_resolution_witness :
    TieList.lineNameCell (some 10) 0 ["Export", "", ""]
        = TieList.lineNameCell none 0 ["Export", "", ""]
    ∧ (TieList.processRow [] none
        { currentLineName := "Z", flowColIndex := some 0, results := [] }
        ["Export", "", ""]).currentLineName = "Z" :=
  ⟨(claim3_name_resolution_amended 10 0 ["Export", "", ""] [] none
      { currentLineName := "Z", flowColIndex := some 0, results := [] }).2.1 (by decide),
   (claim3_name_resolution_amended 10 0 ["Export", "", ""] [] none
      { currentLineName := "Z", flowColIndex := some 0, results := [] }).2.2 rfl (by decide)⟩

namespace TieList

/-- A row without an "export"/"import" cell yields no flow column. -/
theorem findFlowIdxAux_eq_none (row : List String) (i : Nat)
    (h : ∀ cell ∈ row, pyLower (pyStrip cell) ∉ SUPPORTED_TYPES) :
    findFlowIdxAux i row = none := by
  induction row generalizing i with
  | nil => rfl
  | cons c r ih =>
      rw [findFlowIdxAux, if_neg (h c (by simp))]
      exact ih (i + 1) (fun cell hc => h cell (by simp [hc]))

/-- A row without an "export"/"import" cell leaves the initial aggregation
state untouched. -/
theorem processRow_no_flow (hourCols : List Nat) (nameColIdx : Option Nat)
    (row : List String)
    (h : ∀ cell ∈ row, pyLower (pyStrip cell) ∉ SUPPORTED_TYPES) :
    processRow hourCols nameColIdx
        { currentLineName := "", flowColIndex := none, results := [] } row
      = { currentLineName := "", flowColIndex := none, results := [] } := by
  by_cases hrow : row = []
  · simp [processRow, hrow]
  · simp [processRow, hrow, findFlowIdx, findFlowIdxAux_eq_none row 0 h]

/-- Folding the aggregator over rows devoid of flow tokens keeps the
initial state. -/
theorem foldl_processRow_no_flow (hourCols : List Nat) (nameColIdx : Option Nat)
    (dataRows : List (List String))
    (h : ∀ row ∈ dataRows, ∀ cell ∈ row, pyLower (pyStrip cell) ∉ SUPPORTED_TYPES) :
    dataRows.foldl (processRow hourCols nameColIdx)
        { currentLineName := "", flowColIndex := none, results := [] }
      = { currentLineName := "", flowColIndex := none, results := [] } := by
  induction dataRows with
  | nil => rfl
  | cons row rest ih =>
      rw [List.foldl_cons, processRow_no_flow hourCols nameColIdx row (h row (by simp))]
      exact ih (fun r hr cell hc => h r (by simp [hr]) cell hc)

end TieList

/-- C7: a file whose header row was detected but in which no data-row cell
trims and lowercases to "export" or "import" aggregates to the empty
per-file totals map. -/
theorem claim7_no_flow_token_empty_totals (rows : List (List String))
    (hi : Nat) (hourCols : List Nat)
    (hloc : TieList.locate_header_and_hours rows = some (hi, hourCols))
    (hnone : ∀ row ∈ rows.drop (hi + 1), ∀ cell ∈ row,
      TieList.pyLower (TieList.pyStrip cell) ∉ TieList.SUPPORTED_TYPES) :
    TieList.process_csv_file rows = [] := by
  have hne : rows ≠ [] := by
    intro he
    rw [he] at hloc
    exact Option.noConfusion hloc
  rw [TieList.process_csv_file, if_neg hne, hloc]
  have hfold := TieList.foldl_processRow_no_flow hourCols
    (TieList.find_name_col (rows.getD hi [])) (rows.drop (hi + 1)) hnone
  simp only [List.getD, List.get?_eq_getElem?] at hfold
  simp [hfold]

/-- Witness for C7: a header with "Hr01" followed only by a "Net" row. -/
theorem claim7_no_flow_token_witness :
    TieList.process_csv_file [["Hr01"], ["Net", "5"]] = [] :=
  claim7_no_flow_token_empty_totals [["Hr01"], ["Net", "5"]] 0 [0]
    (by decide) (by decide)

/-- C5: with files jan.csv, jan_update.csv, feb.csv the selector picks
jan_update.csv and feb.csv when updates are preferred and jan.csv and
feb.csv otherwise, each time ordered deterministically (by base key in the
first case, by path in the second). -/
theorem claim5_choose_csv_files_example :
    TieList.choose_csv_files ["jan.csv", "jan_update.csv", "feb.csv"] true
      = ["feb.csv", "jan_update.csv"]
    ∧ TieList.choose_csv_files ["jan.csv", "jan_update.csv", "feb.csv"] false
      = ["feb.csv", "jan.csv"] := by
  constructor <;> rfl

/-- C10: base keys are compared case-sensitively although the "_update"
suffix test is case-insensitive, so "JAN_UPDATE.csv" (key "JAN") does not
replace "Jan.csv" (key "Jan") and both files are selected. -/
theorem claim10_case_sensitive_base_keys :
    TieList.choose_csv_files ["Jan.csv", "JAN_UPDATE.csv"] true
      = ["JAN_UPDATE.csv", "Jan.csv"]
    ∧ TieList.dropLast7 (TieList.splitextRoot "JAN_UPDATE.csv")
        ≠ TieList.splitextRoot "Jan.csv" := by
  constructor
  · rfl
  · decide

namespace TieList

/-- Looking up after one `addFlow` adds the value exactly at the matching
flow key. -/
theorem lookupFlow_addFlow (td : List (String × Rat)) (f q : String) (v : Rat) :
    lookupFlow (addFlow td f v) q = lookupFlow td q + (if f = q then v else 0) := by
  induction td with
  | nil => by_cases h : f = q <;> simp [addFlow, lookupFlow, h]
  | cons p r ih =>
      obtain ⟨g, x⟩ := p
      by_cases hgf : g = f
      · subst hgf
        by_cases hq : g = q <;> simp [addFlow, lookupFlow, hq]
      · by_cases hq : g = q
        · have hfq : f ≠ q := fun he => hgf (hq.trans he.symm)
          have hqf : q ≠ f := fun he => hfq he.symm
          simp [addFlow, lookupFlow, hgf, hq, hfq, hqf]
        · simp [addFlow, lookupFlow, hgf, hq, ih]

/-- Looking up after one `addValue` adds the value exactly at the matching
tie/flow pair. -/
theorem lookupTotal_addValue (tot : Totals) (l f : String) (v : Rat) (l' q : String) :
    lookupTotal (addValue tot l f v) l' q
      = lookupTotal tot l' q + (if l = l' ∧ f = q then v else 0) := by
  induction tot with
  | nil =>
      by_cases hl : l = l'
      · subst hl
        by_cases hf : f = q <;> simp [addValue, addFlow, lookupTotal, lookupFlow, hf]
      · simp [addValue, addFlow, lookupTotal, lookupFlow, hl]
  | cons p r ih =>
      obtain ⟨g, td⟩ := p
      by_cases hgl : g = l
      · subst hgl
        by_cases hl' : g = l'
        · subst hl'
          simp [addValue, lookupTotal, lookupFlow_addFlow]
        · simp [addValue, lookupTotal, hl']
      · by_cases hl' : g = l'
        · subst hl'
          have hll : l ≠ g := fun he => hgl he.symm
          simp [addValue, lookupTotal, hgl, hll]
        · simp [addValue, lookupTotal, hgl, hl', ih]

/-- Folding one inner flow-type map into the accumulator adds its
contribution to every entry. -/
theorem lookupTotal_foldTd (ln : String) (td : List (String × Rat))
    (acc : Totals) (l q : String) :
    lookupTotal (td.foldl (fun a p => addValue a ln p.1 p.2) acc) l q
      = lookupTotal acc l q + tdContrib ln td l q := by
  induction td generalizing acc with
  | nil => simp [tdContrib]
  | cons p r ih =>
      rw [List.foldl_cons, ih, lookupTotal_addValue]
      simp [tdContrib, add_assoc]

/-- Folding one per-file result into the accumulator adds its contribution
to every entry. -/
theorem lookupTotal_mergeOneResult (acc res : Totals) (l q : String) :
    lookupTotal (mergeOneResult acc res) l q
      = lookupTotal acc l q + resContrib res l q := by
  unfold mergeOneResult
  induction res generalizing acc with
  | nil => simp [resContrib]
  | cons p r ih =>
      rw [List.foldl_cons, ih, lookupTotal_foldTd]
      simp [resContrib, add_assoc]

/-- Every entry of the merged result is the sum of the per-file
contributions. -/
theorem lookupTotal_merge_aux (rs : List Totals) (acc : Totals) (l q : String) :
    lookupTotal (rs.foldl mergeOneResult acc) l q
      = lookupTotal acc l q + (rs.map (fun r => resContrib r l q)).sum := by
  induction rs generalizing acc with
  | nil => simp
  | cons r rest ih =>
      rw [List.foldl_cons, ih, lookupTotal_mergeOneResult]
      simp [add_assoc]

end TieList

/-- C8: the yearly merger is a pure additive fold — the example merge
yields Export 15 / Import 2 for tie "-A" — and the merged totals looked up
at any tie and flow type are invariant under permuting the list of
per-file maps (with `Rat` values, addition is exactly commutative). -/
theorem claim8_merge_additive_order_independent :
    TieList.merge_results
        [[("-A", [("Export", 10)])], [("-A", [("Export", 5), ("Import", 2)])]]
      = [("-A", [("Export", 15), ("Import", 2)])]
    ∧ ∀ (l1 l2 : List TieList.Totals), l1.Perm l2 → ∀ line flow,
        TieList.lookupTotal (TieList.merge_results l1) line flow
          = TieList.lookupTotal (TieList.merge_results l2) line flow := by
  refine ⟨by decide, fun l1 l2 hp line flow => ?_⟩
  unfold TieList.merge_results
  rw [TieList.lookupTotal_merge_aux, TieList.lookupTotal_merge_aux]
  have hmp := hp.map (fun r => TieList.resContrib r line flow)
  rw [hmp.sum_eq]

/-- Witness for C8: the example pair of per-file maps, merged in both
orders, agrees at tie "-A", flow "Export". -/
theorem claim8_merge_witness :
    TieList.lookupTotal
        (TieList.merge_results
          [[("-A", [("Export", 10)])], [("-A", [("Export", 5), ("Import", 2)])]])
        "-A" "Export"
      = TieList.lookupTotal
          (TieList.merge_results
            [[("-A", [("Export", 5), ("Import", 2)])], [("-A", [("Export", 10)])]])
          "-A" "Export" :=
  claim8_merge_additive_order_independent.2
    [[("-A", [("Export", 10)])], [("-A", [("Export", 5), ("Import", 2)])]]
    [[("-A", [("Export", 5), ("Import", 2)])], [("-A", [("Export", 10)])]]
    (List.Perm.swap _ _ _) "-A" "Export"

/-- C4 (amended): `write_yearly_results_csv` writes a file exactly when
the totals map is non-empty and returns no path otherwise; but the other
tabular writer, `write_subfolder_summary` in `core/exporter.py`, returns
an output path (creating a header-only file) even for an empty map. -/
theorem claim4_writer_amended (yearly : TieList.Totals) (label out root fname : String) :
    (TieList.write_yearly_results_csv yearly label out = none ↔ yearly = [])
    ∧ (TieList.write_subfolder_summary root fname yearly).1
        = root ++ "/" ++ fname ++ "_summary.csv" := by
  constructor
  · constructor
    · intro h
      by_contra hne
      simp [TieList.write_yearly_results_csv, hne] at h
    · intro h
      simp [TieList.write_yearly_results_csv, h]
  · rfl

/-- Counterexample to C4 as stated: on the empty totals map the exporter's
tabular writer still produces an output file (path returned, header-only
content), instead of writing nothing and returning no path. -/
theorem claim4_counterexample :
    TieList.write_subfolder_summary "out" "F" [] = ("out/F_summary.csv", []) := by
  decide

/-- C1 (amended): the reader decodes with UTF-8 (optional BOM) only; when
the bytes do not decode, no fallback encoding is tried and the
`UnicodeDecodeError` propagates out of `process_csv_file`; bytes that do
decode are parsed and aggregated normally, as on the sample file. -/
theorem claim1_no_encoding_fallback_amended :
    (∀ bs : List Nat, TieList.utf8SigDecode bs = none →
      TieList.process_csv_file_bytes bs
        = Except.error TieList.PyError.unicodeDecodeError)
    ∧ TieList.process_csv_file_bytes
        ("Type,Date,X,Hr01,Hr02\nExport,d,TieA,5,7".toList.map Char.toNat)
        = Except.ok [("TieA", [("Export", 12)])] := by
  refine ⟨fun bs h => ?_, by decide⟩
  unfold TieList.process_csv_file_bytes
  rw [h]

/-- Witness for C1: the lone continuation byte 0x80 is not valid UTF-8,
and processing it errors out. -/
theorem claim1_no_encoding_fallback_witness :
    TieList.process_csv_file_bytes [0x80]
      = Except.error TieList.PyError.unicodeDecodeError :=
  claim1_no_encoding_fallback_amended.1 [0x80] (by decide)

/-- Counterexample to C1 as stated: the byte 0xFF decodes under the
claimed cp1252/latin-1 fallbacks (to "ÿ"), yet the code, which opens with
"utf-8-sig" alone and no retry, fails with a decode error — an exception
caused solely by undecodable bytes. -/
theorem claim1_counterexample :
    TieList.process_csv_file_bytes [0xFF]
      = Except.error TieList.PyError.unicodeDecodeError := by decide
